import Mathlib

/-!
Shallow embedding of the ctm server (ctm_server.py, ctm_common.py).

The store is the per-event filesystem content: player record files,
scan record files and scan payload files, each keyed by an id, plus the
set of event directories.  Directory listing order is not specified by
the source (os.listdir), so record collections are modelled as lists
whose order is an arbitrary deterministic choice; overwriting a record
file is modelled as remove-then-append.  Every operation is a function
from the server state to a result together with the state at the moment
the operation returned or raised, so writes performed before an
exception persist, exactly as on the real filesystem.  Lock files are
not records; the flock-based Lock scope is embedded separately as a
control-flow function over an explicit set of held lock paths.
-/

namespace Ctm

/-- Caller-supplied player identifier (integers in the test suite). -/
abbrev PlayerId := Nat

/-- Server-generated scan identifier (a base32 token in the source). -/
abbrev ScanId := String

/-- Player record, from ctm_common.Player(id, name, scan_id). -/
structure Player where
  id : PlayerId
  name : String
  scan_id : Option ScanId
deriving DecidableEq, Repr

/-- Scan record, from ctm_common.Scan(id, player_id, data). -/
structure Scan where
  id : ScanId
  player_id : Option PlayerId
  data : Option String
deriving DecidableEq, Repr

/-- Error kinds of ctm_common plus a catch-all: fatal models any plain
Exception or uncaught file IO error (unclassified, non-retryable). -/
inductive Err where
  | alreadyExists (msg : String)
  | notFound (msg : String)
  | unavailable
  | fatal (msg : String)
deriving DecidableEq, Repr

/-- Lookup in a collection of files keyed by an id. -/
def lookupAssoc {α β : Type} [DecidableEq β] (key : α → β) (l : List α) (x : β) : Option α :=
  l.find? (fun q => decide (key q = x))

/-- Overwrite or create the file keyed by the id of a: remove any entry
with that key, append the new one. -/
def setAssoc {α β : Type} [DecidableEq β] (key : α → β) (l : List α) (a : α) : List α :=
  l.filter (fun q => ! decide (key q = key a)) ++ [a]

/-- Delete the file keyed by x. -/
def removeAssoc {α β : Type} [DecidableEq β] (key : α → β) (l : List α) (x : β) : List α :=
  l.filter (fun q => ! decide (key q = x))

theorem lookupAssoc_nil {α β : Type} [DecidableEq β] (key : α → β) (x : β) :
    lookupAssoc key [] x = none := rfl

theorem lookupAssoc_cons {α β : Type} [DecidableEq β] (key : α → β) (q : α) (t : List α)
    (x : β) :
    lookupAssoc key (q :: t) x = if key q = x then some q else lookupAssoc key t x := by
  by_cases h : key q = x <;> simp [lookupAssoc, List.find?, h]

theorem lookupAssoc_setAssoc {α β : Type} [DecidableEq β] (key : α → β) (l : List α)
    (a : α) (x : β) :
    lookupAssoc key (setAssoc key l a) x
      = if key a = x then some a else lookupAssoc key l x := by
  induction l with
  | nil =>
      by_cases h : key a = x <;> simp [lookupAssoc, setAssoc, List.find?, h]
  | cons q t ih =>
      by_cases hqa : key q = key a
      · have hstep : setAssoc key (q :: t) a = setAssoc key t a := by
          simp [setAssoc, List.filter, hqa]
        rw [hstep, ih, lookupAssoc_cons]
        by_cases hax : key a = x
        · simp [hax]
        · have hqx : ¬ key q = x := by
            intro h; exact hax (by rw [← hqa, h])
          simp [hax, hqx]
      · have hstep : setAssoc key (q :: t) a = q :: setAssoc key t a := by
          simp [setAssoc, List.filter, hqa]
        rw [hstep, lookupAssoc_cons, lookupAssoc_cons]
        by_cases hqx : key q = x
        · have hax : ¬ key a = x := by
            intro h; exact hqa (by rw [hqx, h])
          simp [hqx, hax]
        · simp [hqx, ih]

theorem lookupAssoc_removeAssoc {α β : Type} [DecidableEq β] (key : α → β) (l : List α)
    (x y : β) :
    lookupAssoc key (removeAssoc key l x) y
      = if x = y then none else lookupAssoc key l y := by
  induction l with
  | nil => by_cases h : x = y <;> simp [lookupAssoc, removeAssoc, h]
  | cons q t ih =>
      by_cases hqx : key q = x
      · have hstep : removeAssoc key (q :: t) x = removeAssoc key t x := by
          simp [removeAssoc, List.filter, hqx]
        rw [hstep, ih, lookupAssoc_cons]
        by_cases hxy : x = y
        · simp [hxy]
        · have hqy : ¬ key q = y := by
            intro h; exact hxy (by rw [← hqx, h])
          simp [hxy, hqy]
      · have hstep : removeAssoc key (q :: t) x = q :: removeAssoc key t x := by
          simp [removeAssoc, List.filter, hqx]
        rw [hstep, lookupAssoc_cons, lookupAssoc_cons]
        by_cases hqy : key q = y
        · have hxy : ¬ x = y := by
            intro h; exact hqx (by rw [h, hqy])
          simp [hqy, hxy]
        · simp [hqy, ih]

/-- State of one event directory: player record files (prefix p),
scan record files (prefix s), scan payload files (prefix d).  The
writeCount field is ghost instrumentation counting record/payload
writes, so that zero-write claims are about writes, not mere state
equality. -/
structure EventState where
  players : List Player
  scans : List Scan
  scanData : List (ScanId × String)
  writeCount : Nat
deriving DecidableEq, Repr

/-- Whole server state: one entry per event directory (prefix e). -/
structure ServerState where
  events : List (String × EventState)
deriving DecidableEq, Repr

/-- Directory-presence check of _EnsureEvent, plus reading the directory
content. -/
def getEvent (st : ServerState) (e : String) : Option EventState :=
  (lookupAssoc Prod.fst st.events e).map (fun q => q.2)

/-- Replace the content of event directory e. -/
def setEvent (st : ServerState) (e : String) (es : EventState) : ServerState :=
  ⟨setAssoc Prod.fst st.events (e, es)⟩

/-- Lookup of a player record file, as os.path.exists plus _ReadPlayer. -/
def lookupPlayer (es : EventState) (i : PlayerId) : Option Player :=
  lookupAssoc Player.id es.players i

/-- Lookup of a scan record file, as os.path.exists plus _ReadScan. -/
def lookupScan (es : EventState) (i : ScanId) : Option Scan :=
  lookupAssoc Scan.id es.scans i

/-- Lookup of a scan payload file (_ReadScanData). -/
def lookupScanData (es : EventState) (i : ScanId) : Option String :=
  (lookupAssoc Prod.fst es.scanData i).map (fun q => q.2)

/-- CtmServer._WritePlayer: overwrite the player record file. -/
def WritePlayer (es : EventState) (p : Player) : EventState :=
  { es with players := setAssoc Player.id es.players p,
            writeCount := es.writeCount + 1 }

/-- CtmServer._WriteScan: overwrite the scan record file. -/
def WriteScan (es : EventState) (s : Scan) : EventState :=
  { es with scans := setAssoc Scan.id es.scans s,
            writeCount := es.writeCount + 1 }

/-- CtmServer._WriteScanData: overwrite the scan payload file. -/
def WriteScanData (es : EventState) (i : ScanId) (d : String) : EventState :=
  { es with scanData := setAssoc Prod.fst es.scanData (i, d),
            writeCount := es.writeCount + 1 }

/-- os.remove of a player record file inside SetPlayers. -/
def RemovePlayer (es : EventState) (i : PlayerId) : EventState :=
  { es with players := removeAssoc Player.id es.players i }

/-- CtmServer._ReadPlayer: open raises an unclassified IOError when the
record file is absent. -/
def ReadPlayer (es : EventState) (i : PlayerId) : Except Err Player :=
  match lookupPlayer es i with
  | some p => .ok p
  | none => .error (.fatal ("No such file or directory: player " ++ toString i))

/-- CtmServer._ModifyPlayerScanId: read the player record, rewrite it
with the given scan_id. -/
def ModifyPlayerScanId (es : EventState) (i : PlayerId) (sid : Option ScanId) :
    Except Err Unit × EventState :=
  match ReadPlayer es i with
  | .error err => (.error err, es)
  | .ok p => (.ok (), WritePlayer es (Player.mk p.id p.name sid))

/-- CtmServer.ListPlayers: event check, then one record per player file. -/
def ListPlayers (st : ServerState) (e : String) :
    Except Err (List Player) × ServerState :=
  match getEvent st e with
  | none => (.error (.notFound ("Event " ++ e ++ " does not exist.")), st)
  | some es => (.ok es.players, st)

/-- CtmServer.SetPlayers: event check, remove every listed player record,
then write every supplied record in order. -/
def SetPlayers (st : ServerState) (e : String) (players : List Player) :
    Except Err Unit × ServerState :=
  match getEvent st e with
  | none => (.error (.notFound ("Event " ++ e ++ " does not exist.")), st)
  | some es =>
      let es1 := (es.players.map Player.id).foldl RemovePlayer es
      let es2 := players.foldl WritePlayer es1
      (.ok (), setEvent st e es2)

/-- CtmServer.ListScans: event check, then every scan record, filtered to
unmarked scans when unmarked_only. -/
def ListScans (st : ServerState) (e : String) (unmarked_only : Bool) :
    Except Err (List Scan) × ServerState :=
  match getEvent st e with
  | none => (.error (.notFound ("Event " ++ e ++ " does not exist.")), st)
  | some es =>
      (.ok (es.scans.filter (fun s => ! unmarked_only || s.player_id.isNone)), st)

/-- CtmServer.GetScan: event check, scan existence check, read the record,
attach the payload when the payload file exists. -/
def GetScan (st : ServerState) (e : String) (scan_id : ScanId) :
    Except Err Scan × ServerState :=
  match getEvent st e with
  | none => (.error (.notFound ("Event " ++ e ++ " does not exist.")), st)
  | some es =>
      match lookupScan es scan_id with
      | none => (.error (.notFound ("Scan " ++ scan_id ++ " does not exist.")), st)
      | some scan =>
          match lookupScanData es scan_id with
          | some data => (.ok (Scan.mk scan.id scan.player_id (some data)), st)
          | none => (.ok scan, st)

/-- CtmServer._GetScanId: the source repeatedly draws random tokens until
one names no existing scan record; modelled over an explicit candidate
stream, returning the first fresh candidate. -/
def GetScanId (es : EventState) (cands : List ScanId) : Option ScanId :=
  cands.find? (fun c => (lookupScan es c).isNone)

/-- CtmServer.PostScan: event check, draw a fresh id, write the scan
record with no player and no inline data, write the payload file, return
the id.  The none branch of the id draw is unreachable whenever the
candidate stream holds a fresh id; the source would loop there. -/
def PostScan (st : ServerState) (e : String) (data : String) (cands : List ScanId) :
    Except Err ScanId × ServerState :=
  match getEvent st e with
  | none => (.error (.notFound ("Event " ++ e ++ " does not exist.")), st)
  | some es =>
      match GetScanId es cands with
      | none => (.error (.fatal "scan id generation exhausted the candidate stream"), st)
      | some scan_id =>
          let es1 := WriteScan es (Scan.mk scan_id none none)
          let es2 := WriteScanData es1 scan_id data
          (.ok scan_id, setEvent st e es2)

/-- Core transition of CtmServer.MarkScan once the event, the scan and
the requested player are known to exist: no-op when the scan already
references the requested player; otherwise rewrite the scan record, then
clear the previous owner (read-modify-write, raising an unclassified
file error when that player record is gone), then set the new owner. -/
def MarkScanCore (st : ServerState) (e : String) (es : EventState) (scan_id : ScanId)
    (player_id : Option PlayerId) (existing_scan : Scan) :
    Except Err Unit × ServerState :=
  if player_id = existing_scan.player_id then
    (.ok (), st)
  else
    let es1 := WriteScan es (Scan.mk scan_id player_id none)
    let cleared : Except Err Unit × EventState :=
      match existing_scan.player_id with
      | some old => ModifyPlayerScanId es1 old none
      | none => (.ok (), es1)
    match cleared with
    | (.error err, esx) => (.error err, setEvent st e esx)
    | (.ok _, es2) =>
        match player_id with
        | some pid =>
            match ModifyPlayerScanId es2 pid (some scan_id) with
            | (.error err, esx) => (.error err, setEvent st e esx)
            | (.ok _, es3) => (.ok (), setEvent st e es3)
        | none => (.ok (), setEvent st e es2)

/-- CtmServer.MarkScan: event check, scan existence check (NotFound),
player existence check when a player id is given (NotFound), then the
core transition.  The source reads the scan record between the two
checks and the transition; the read is combined with the existence check
here, since nothing is written in between. -/
def MarkScan (st : ServerState) (e : String) (scan_id : ScanId)
    (player_id : Option PlayerId) : Except Err Unit × ServerState :=
  match getEvent st e with
  | none => (.error (.notFound ("Event " ++ e ++ " does not exist.")), st)
  | some es =>
      match lookupScan es scan_id with
      | none => (.error (.notFound ("Scan " ++ scan_id ++ " does not exist.")), st)
      | some existing_scan =>
          match player_id with
          | some pid =>
              if (lookupPlayer es pid).isNone then
                (.error (.notFound ("Player " ++ toString pid ++ " does not exist.")), st)
              else
                MarkScanCore st e es scan_id player_id existing_scan
          | none => MarkScanCore st e es scan_id player_id existing_scan

/-- Set of lock-file paths currently flocked by this process. -/
structure LockState where
  held : List String
deriving DecidableEq, Repr

/-- The Lock context manager: open the lock file, flock it with a
bounded wait (flockOk says whether the wait succeeded), raise
Unavailable on timeout with nothing held, otherwise run the body and
unlock on every exit, error or not. -/
def Lock {α : Type} (path : String) (flockOk : Bool)
    (body : LockState → Except Err α × LockState) (ls : LockState) :
    Except Err α × LockState :=
  if ! flockOk then
    (.error .unavailable, ls)
  else
    let r := body (LockState.mk (path :: ls.held))
    (r.1, LockState.mk (r.2.held.erase path))

/-- Python truthiness of the event_name argument: None and the empty
string are falsy. -/
def isTruthy : Option String → Bool
  | none => false
  | some s => ! (s == "")

/-- CtmServer._IsValidPath: any path with an event scope is accepted;
without one, only event paths and the events master lock path are. -/
def IsValidPath (pfx name : String) (event_name : Option String) : Bool :=
  if isTruthy event_name then true
  else if pfx == "e" then true
  else if pfx == "m" && name == "e" then true
  else false

/-- CtmServer._GetPath: validity check (plain Exception on failure, an
unclassified fatal error), then working_dir / event dir when scoped /
prefixed file name, with lock paths carrying an extra l prefix. -/
def GetPath (working_dir pfx name : String) (event_name : Option String)
    (lock : Bool) : Except Err String :=
  if ! IsValidPath pfx name event_name then
    .error (.fatal ("Invalid call: _GetPath(" ++ pfx ++ ", " ++ name ++ ")"))
  else
    let parts1 := [working_dir]
    let parts2 := if isTruthy event_name
      then parts1 ++ ["e" ++ event_name.getD ""]
      else parts1
    let parts3 := if lock
      then parts2 ++ ["l" ++ pfx ++ name]
      else parts2 ++ [pfx ++ name]
    .ok (String.intercalate "/" parts3)

/-- Owner of a scan: the player_id field of its record, if the record
exists. -/
def scanOwner (es : EventState) (sid : ScanId) : Option PlayerId :=
  (lookupScan es sid).bind Scan.player_id

/-- Scan held by a player: the scan_id field of its record, if the
record exists. -/
def playerScan (es : EventState) (pid : PlayerId) : Option ScanId :=
  (lookupPlayer es pid).bind Player.scan_id

/-- Invariant I1 of the spec: Scan S has player_id = P iff Player P has
scan_id = S. -/
def I1 (es : EventState) : Prop :=
  ∀ sid pid, scanOwner es sid = some pid ↔ playerScan es pid = some sid

theorem lookupPlayer_WritePlayer (es : EventState) (p : Player) (i : PlayerId) :
    lookupPlayer (WritePlayer es p) i = if p.id = i then some p else lookupPlayer es i := by
  simp [lookupPlayer, WritePlayer, lookupAssoc_setAssoc]

theorem lookupScan_WritePlayer (es : EventState) (p : Player) (i : ScanId) :
    lookupScan (WritePlayer es p) i = lookupScan es i := rfl

theorem lookupScan_WriteScan (es : EventState) (s : Scan) (i : ScanId) :
    lookupScan (WriteScan es s) i = if s.id = i then some s else lookupScan es i := by
  simp [lookupScan, WriteScan, lookupAssoc_setAssoc]

theorem lookupPlayer_WriteScan (es : EventState) (s : Scan) (i : PlayerId) :
    lookupPlayer (WriteScan es s) i = lookupPlayer es i := rfl

theorem lookupScan_WriteScanData (es : EventState) (i : ScanId) (d : String) (j : ScanId) :
    lookupScan (WriteScanData es i d) j = lookupScan es j := rfl

theorem lookupPlayer_WriteScanData (es : EventState) (i : ScanId) (d : String)
    (j : PlayerId) : lookupPlayer (WriteScanData es i d) j = lookupPlayer es j := rfl

theorem lookupScanData_WriteScanData (es : EventState) (i : ScanId) (d : String)
    (j : ScanId) :
    lookupScanData (WriteScanData es i d) j
      = if i = j then some d else lookupScanData es j := by
  simp only [lookupScanData, WriteScanData]
  rw [lookupAssoc_setAssoc]
  by_cases h : i = j <;> simp [h]

theorem lookupScanData_WriteScan (es : EventState) (s : Scan) (j : ScanId) :
    lookupScanData (WriteScan es s) j = lookupScanData es j := rfl

theorem players_WriteScan (es : EventState) (s : Scan) :
    (WriteScan es s).players = es.players := rfl

theorem getEvent_setEvent (st : ServerState) (e : String) (es : EventState) (x : String) :
    getEvent (setEvent st e es) x = if e = x then some es else getEvent st x := by
  simp only [getEvent, setEvent]
  rw [lookupAssoc_setAssoc]
  by_cases h : e = x <;> simp [h]

theorem getEvent_setEvent_self (st : ServerState) (e : String) (es : EventState) :
    getEvent (setEvent st e es) e = some es := by
  simp [getEvent_setEvent]

/-- Event content used by the concrete scenarios: players 0 and 1 with
no scans, scans s0 and s1 unmarked, matching the testMarkScanChange
setup. -/
def demoEvent : EventState :=
  EventState.mk [Player.mk 0 "a" none, Player.mk 1 "b" none]
    [Scan.mk "s0" none none, Scan.mk "s1" none none] [] 0

/-- Server state holding the single event directory ev. -/
def demoState : ServerState := ServerState.mk [("ev", demoEvent)]

/-- C8: a Lock scope whose bounded flock wait expires raises Unavailable
with no lock left held; a scope that acquires the lock releases it on
every exit, including when the body raises, provided the body itself is
lock-neutral (as every nested Lock scope is). -/
theorem C8_Lock_timeout_and_release {α : Type} (path : String) (flockOk : Bool)
    (body : LockState → Except Err α × LockState) (ls : LockState)
    (hbody : ∀ l, ((body l).2).held = l.held) :
    (flockOk = false → Lock path flockOk body ls = (.error .unavailable, ls)) ∧
    ((Lock path flockOk body ls).2).held = ls.held := by
  constructor
  · intro h
    simp [Lock, h]
  · by_cases h : flockOk
    · simp [Lock, h, hbody]
    · simp [Lock, h]

/-- C8 witness: a body that raises a fatal error still leaves the held
set empty after the scope. -/
theorem C8_Lock_timeout_and_release_witness :
    ((Lock "k" true
        (fun l => ((Except.error (Err.fatal "x") : Except Err Nat), l))
        (LockState.mk [])).2).held = (LockState.mk ([] : List String)).held :=
  (C8_Lock_timeout_and_release "k" true
    (fun l => ((Except.error (Err.fatal "x") : Except Err Nat), l))
    (LockState.mk []) (fun _ => rfl)).2

/-- C9 as stated is false: the validity check accepts any path carrying
an event scope, so resolving an Event path with an event scope returns a
path instead of raising a fatal error. -/
theorem C9_counterexample :
    IsValidPath "e" "x" (some "ev") = true ∧
    GetPath "w" "e" "x" (some "ev") false = Except.ok "w/eev/ex" := by
  exact ⟨rfl, rfl⟩

/-- C9 amended: resolving a Player or Scan item path, or the player or
scan collection lock path, without an event scope raises a fatal
unclassified error (never AlreadyExists, NotFound or Unavailable); with
a nonempty event scope the validity check always passes, so Event paths
under an event scope are accepted rather than rejected. -/
theorem C9_GetPath_scope (working_dir pfx name : String) (lock : Bool) (ev : String)
    (hpfx : pfx = "p" ∨ pfx = "s" ∨ (pfx = "m" ∧ (name = "p" ∨ name = "s")))
    (hev : ¬ ev = "") :
    GetPath working_dir pfx name none lock
      = Except.error (Err.fatal ("Invalid call: _GetPath(" ++ pfx ++ ", " ++ name ++ ")")) ∧
    (∃ path, GetPath working_dir "e" name (some ev) lock = Except.ok path) := by
  constructor
  · have hvalid : IsValidPath pfx name none = false := by
      rcases hpfx with h | h | ⟨h, hn⟩
      · subst h; rfl
      · subst h; rfl
      · subst h
        rcases hn with hn | hn <;> subst hn <;> rfl
    simp [GetPath, hvalid]
  · have hvalid : IsValidPath "e" name (some ev) = true := by
      simp [IsValidPath, isTruthy, hev]
    have htr : isTruthy (some ev) = true := by simp [isTruthy, hev]
    cases lock
    · exact ⟨String.intercalate "/" [working_dir, "e" ++ ev, "e" ++ name],
        by simp [GetPath, hvalid, htr]⟩
    · exact ⟨String.intercalate "/" [working_dir, "e" ++ ev, "l" ++ "e" ++ name],
        by simp [GetPath, hvalid, htr]⟩

/-- C9 witness: the player item path and the scan collection lock path
without an event scope are rejected fatally, while an event path with an
event scope resolves. -/
theorem C9_GetPath_scope_witness :
    GetPath "w" "p" "3" none false
      = Except.error (Err.fatal ("Invalid call: _GetPath(" ++ "p" ++ ", " ++ "3" ++ ")")) ∧
    (∃ path, GetPath "w" "e" "3" (some "ev") false = Except.ok path) :=
  C9_GetPath_scope "w" "p" "3" false "ev" (Or.inl rfl) (by decide)

/-- C5: every Player/Scan operation on an absent event fails NotFound
and returns the state unchanged. -/
theorem C5_absent_event (st : ServerState) (e : String) (P : List Player)
    (sid : ScanId) (d : String) (cands : List ScanId) (u : Bool) (p : Option PlayerId)
    (h : getEvent st e = none) :
    ListPlayers st e = (Except.error (Err.notFound ("Event " ++ e ++ " does not exist.")), st) ∧
    SetPlayers st e P = (Except.error (Err.notFound ("Event " ++ e ++ " does not exist.")), st) ∧
    ListScans st e u = (Except.error (Err.notFound ("Event " ++ e ++ " does not exist.")), st) ∧
    GetScan st e sid = (Except.error (Err.notFound ("Event " ++ e ++ " does not exist.")), st) ∧
    PostScan st e d cands = (Except.error (Err.notFound ("Event " ++ e ++ " does not exist.")), st) ∧
    MarkScan st e sid p = (Except.error (Err.notFound ("Event " ++ e ++ " does not exist.")), st) := by
  simp [ListPlayers, SetPlayers, ListScans, GetScan, PostScan, MarkScan, h]

/-- C5 witness: the six operations on the absent event zz all fail
NotFound on the demo state and leave it unchanged. -/
theorem C5_absent_event_witness :
    ListPlayers demoState "zz" = (Except.error (Err.notFound ("Event " ++ "zz" ++ " does not exist.")), demoState) ∧
    SetPlayers demoState "zz" [] = (Except.error (Err.notFound ("Event " ++ "zz" ++ " does not exist.")), demoState) ∧
    ListScans demoState "zz" false = (Except.error (Err.notFound ("Event " ++ "zz" ++ " does not exist.")), demoState) ∧
    GetScan demoState "zz" "s0" = (Except.error (Err.notFound ("Event " ++ "zz" ++ " does not exist.")), demoState) ∧
    PostScan demoState "zz" "d" [] = (Except.error (Err.notFound ("Event " ++ "zz" ++ " does not exist.")), demoState) ∧
    MarkScan demoState "zz" "s0" none = (Except.error (Err.notFound ("Event " ++ "zz" ++ " does not exist.")), demoState) :=
  C5_absent_event demoState "zz" [] "s0" "d" [] false none rfl

/-- C2: MarkScan on an existing event fails NotFound when the scan is
absent, or when a player id is given and that player is absent; in both
failure cases the state is unchanged. -/
theorem C2_MarkScan_notFound (st : ServerState) (e : String) (es : EventState)
    (sid : ScanId) (p : Option PlayerId) (hev : getEvent st e = some es) :
    (lookupScan es sid = none →
      MarkScan st e sid p
        = (Except.error (Err.notFound ("Scan " ++ sid ++ " does not exist.")), st)) ∧
    (∀ pid sc, p = some pid → lookupScan es sid = some sc → lookupPlayer es pid = none →
      MarkScan st e sid p
        = (Except.error (Err.notFound ("Player " ++ toString pid ++ " does not exist.")), st)) := by
  constructor
  · intro h
    simp [MarkScan, hev, h]
  · intro pid sc hp hs hpl
    subst hp
    simp [MarkScan, hev, hs, hpl]

/-- C2 witness: on the demo state, marking the absent scan nope and
marking s0 to the absent player 9 both fail NotFound unchanged. -/
theorem C2_MarkScan_notFound_witness :
    MarkScan demoState "ev" "nope" none
      = (Except.error (Err.notFound ("Scan " ++ "nope" ++ " does not exist.")), demoState) ∧
    MarkScan demoState "ev" "s0" (some 9)
      = (Except.error (Err.notFound ("Player " ++ toString (9 : PlayerId) ++ " does not exist.")), demoState) := by
  constructor
  · exact (C2_MarkScan_notFound demoState "ev" demoEvent "nope" none rfl).1 rfl
  · exact (C2_MarkScan_notFound demoState "ev" demoEvent "s0" (some 9) rfl).2
      9 (Scan.mk "s0" none none) rfl rfl rfl

/-- C4: on the demo state, marking s0 to player 0 and then to player 1
succeeds both times and leaves player 0 with no scan, player 1 holding
s0, and s0 owned by player 1. -/
theorem C4_MarkScan_reassign :
    (MarkScan demoState "ev" "s0" (some 0)).1 = Except.ok () ∧
    (MarkScan (MarkScan demoState "ev" "s0" (some 0)).2 "ev" "s0" (some 1)).1 = Except.ok () ∧
    ((getEvent (MarkScan (MarkScan demoState "ev" "s0" (some 0)).2 "ev" "s0" (some 1)).2 "ev").map
        (fun es => (lookupPlayer es 0, lookupPlayer es 1, lookupScan es "s0")))
      = some (some (Player.mk 0 "a" none), some (Player.mk 1 "b" (some "s0")),
          some (Scan.mk "s0" (some 1) none)) := by
  exact ⟨rfl, rfl, rfl⟩

/-- Event content whose only scan is owned by player 7, a player whose
record no longer exists (as after a later SetPlayers call). -/
def danglingEvent : EventState :=
  EventState.mk [Player.mk 0 "a" none] [Scan.mk "sx" (some 7) none] [] 0

/-- Server state holding the dangling-owner event. -/
def danglingState : ServerState := ServerState.mk [("ev", danglingEvent)]

/-- C10: when a scan is owned by a player whose record is gone, marking
it to a different player (or unmarking it) first rewrites the scan
record and then fails with an unclassified file error, not NotFound,
while clearing the old owner: the scan is updated, no player record
changes. -/
theorem C10_MarkScan_dangling_owner (st : ServerState) (e : String) (es : EventState)
    (sid : ScanId) (sc : Scan) (old : PlayerId) (p : Option PlayerId)
    (hev : getEvent st e = some es)
    (hs : lookupScan es sid = some sc)
    (hold : sc.player_id = some old)
    (hmiss : lookupPlayer es old = none)
    (hne : ¬ p = some old)
    (hp : p = none ∨ ∃ pid pl, p = some pid ∧ lookupPlayer es pid = some pl) :
    MarkScan st e sid p
      = (Except.error (Err.fatal ("No such file or directory: player " ++ toString old)),
         setEvent st e (WriteScan es (Scan.mk sid p none))) ∧
    ((getEvent (MarkScan st e sid p).2 e).map EventState.players) = some es.players ∧
    ((getEvent (MarkScan st e sid p).2 e).bind (fun es2 => lookupScan es2 sid))
      = some (Scan.mk sid p none) := by
  have hne2 : ¬ p = sc.player_id := by rw [hold]; exact hne
  have hcore : MarkScanCore st e es sid p sc
      = (Except.error (Err.fatal ("No such file or directory: player " ++ toString old)),
         setEvent st e (WriteScan es (Scan.mk sid p none))) := by
    simp [MarkScanCore, hne2, hne, hold, ModifyPlayerScanId, ReadPlayer,
          lookupPlayer_WriteScan, hmiss]
  have hmain : MarkScan st e sid p
      = (Except.error (Err.fatal ("No such file or directory: player " ++ toString old)),
         setEvent st e (WriteScan es (Scan.mk sid p none))) := by
    rcases hp with hp | ⟨pid, pl, hp, hpl⟩
    · subst hp
      simp [MarkScan, hev, hs, hcore]
    · subst hp
      simp [MarkScan, hev, hs, hpl, hcore]
  refine ⟨hmain, ?_, ?_⟩
  · rw [hmain]
    simp [getEvent_setEvent, players_WriteScan]
  · rw [hmain]
    simp [getEvent_setEvent, lookupScan_WriteScan]

/-- C10 witness: marking the dangling scan sx to the existing player 0
rewrites sx and fails fatally, leaving the lone player record intact. -/
theorem C10_MarkScan_dangling_owner_witness :
    MarkScan danglingState "ev" "sx" (some 0)
      = (Except.error (Err.fatal ("No such file or directory: player " ++ toString (7 : PlayerId))),
         setEvent danglingState "ev" (WriteScan danglingEvent (Scan.mk "sx" (some 0) none))) ∧
    ((getEvent (MarkScan danglingState "ev" "sx" (some 0)).2 "ev").map EventState.players)
      = some danglingEvent.players ∧
    ((getEvent (MarkScan danglingState "ev" "sx" (some 0)).2 "ev").bind
        (fun es2 => lookupScan es2 "sx"))
      = some (Scan.mk "sx" (some 0) none) :=
  C10_MarkScan_dangling_owner danglingState "ev" danglingEvent "sx"
    (Scan.mk "sx" (some 7) none) 7 (some 0) rfl rfl rfl rfl (by decide)
    (Or.inr ⟨0, Player.mk 0 "a" none, rfl, rfl⟩)

/-- C7: a successful PostScan returns an id that named no existing scan
record, and GetScan immediately after returns that id with no player and
the posted payload attached. -/
theorem C7_PostScan_GetScan (st : ServerState) (e : String) (d : String)
    (cands : List ScanId) (sid : ScanId)
    (h : (PostScan st e d cands).1 = Except.ok sid) :
    (∃ es, getEvent st e = some es ∧ lookupScan es sid = none) ∧
    GetScan (PostScan st e d cands).2 e sid
      = (Except.ok (Scan.mk sid none (some d)), (PostScan st e d cands).2) := by
  cases hev : getEvent st e with
  | none =>
      rw [PostScan] at h
      simp [hev] at h
  | some es =>
      cases hfind : GetScanId es cands with
      | none =>
          rw [PostScan] at h
          simp [hev, hfind] at h
      | some c =>
          have hc : c = sid := by
            rw [PostScan] at h
            simp [hev, hfind] at h
            exact h
          subst hc
          have hfresh : lookupScan es c = none := by
            have hpred := List.find?_some hfind
            simpa using hpred
          have hpost : (PostScan st e d cands).2
              = setEvent st e (WriteScanData (WriteScan es (Scan.mk c none none)) c d) := by
            simp [PostScan, hev, hfind]
          refine ⟨⟨es, rfl, hfresh⟩, ?_⟩
          rw [hpost]
          simp [GetScan, getEvent_setEvent, lookupScan_WriteScanData,
                lookupScan_WriteScan, lookupScanData_WriteScanData]

/-- C7 witness: posting data on the demo state draws the fresh id zz and
an immediate GetScan returns it with the payload attached. -/
theorem C7_PostScan_GetScan_witness :
    (∃ es, getEvent demoState "ev" = some es ∧ lookupScan es "zz" = none) ∧
    GetScan (PostScan demoState "ev" "data" ["s0", "zz"]).2 "ev" "zz"
      = (Except.ok (Scan.mk "zz" none (some "data")),
         (PostScan demoState "ev" "data" ["s0", "zz"]).2) :=
  C7_PostScan_GetScan demoState "ev" "data" ["s0", "zz"] "zz" rfl

theorem lookupAssoc_eq_some_key {α β : Type} [DecidableEq β] (key : α → β)
    (l : List α) (x : β) (a : α) (h : lookupAssoc key l x = some a) : key a = x := by
  have hpred := List.find?_some h
  simpa using hpred

theorem lookupPlayer_eq_some_id (es : EventState) (i : PlayerId) (pl : Player)
    (h : lookupPlayer es i = some pl) : pl.id = i :=
  lookupAssoc_eq_some_key Player.id es.players i pl h

theorem lookupScan_eq_some_id (es : EventState) (i : ScanId) (sc : Scan)
    (h : lookupScan es i = some sc) : sc.id = i :=
  lookupAssoc_eq_some_key Scan.id es.scans i sc h

/-- Shape of the state after a successful MarkScanCore run: the event
still resolves, the scan record now carries the requested player id, and
the requested player record (if any) still exists. -/
theorem MarkScanCore_ok_post (st st1 : ServerState) (e : String) (es : EventState)
    (sid : ScanId) (p : Option PlayerId) (sc : Scan)
    (hev : getEvent st e = some es)
    (hs : lookupScan es sid = some sc)
    (hpl : ∀ pid, p = some pid → (lookupPlayer es pid).isSome = true)
    (h : MarkScanCore st e es sid p sc = (Except.ok (), st1)) :
    ∃ es1, getEvent st1 e = some es1 ∧
      (lookupScan es1 sid).map Scan.player_id = some p ∧
      (∀ pid, p = some pid → (lookupPlayer es1 pid).isSome = true) := by
  by_cases heq : p = sc.player_id
  · rw [MarkScanCore, if_pos heq] at h
    simp only [Prod.mk.injEq, true_and] at h
    subst h
    refine ⟨es, hev, ?_, hpl⟩
    rw [hs]
    simp [heq]
  · rw [MarkScanCore, if_neg heq] at h
    cases hold : sc.player_id with
    | none =>
        rw [hold] at h
        cases p with
        | none => exact absurd hold.symm heq
        | some pid =>
            cases hq : lookupPlayer (WriteScan es (Scan.mk sid (some pid) none)) pid with
            | none =>
                simp only [ModifyPlayerScanId, ReadPlayer, hq] at h
                simp at h
            | some q =>
                simp only [ModifyPlayerScanId, ReadPlayer, hq, Prod.mk.injEq, true_and] at h
                subst h
                have hqid : q.id = pid :=
                  lookupPlayer_eq_some_id _ pid q hq
                refine ⟨_, getEvent_setEvent_self st e _, ?_, ?_⟩
                · simp [lookupScan_WritePlayer, lookupScan_WriteScan]
                · intro pid' hp'
                  cases hp'
                  simp [lookupPlayer_WritePlayer, hqid]
    | some o =>
        rw [hold] at h
        cases holdpl : lookupPlayer (WriteScan es (Scan.mk sid p none)) o with
        | none =>
            simp only [ModifyPlayerScanId, ReadPlayer, holdpl] at h
            simp at h
        | some plo =>
            simp only [ModifyPlayerScanId, ReadPlayer, holdpl] at h
            cases p with
            | none =>
                simp only [Prod.mk.injEq, true_and] at h
                subst h
                refine ⟨_, getEvent_setEvent_self st e _, ?_, ?_⟩
                · simp [lookupScan_WritePlayer, lookupScan_WriteScan]
                · intro pid' hp'
                  cases hp'
            | some pid =>
                cases hq : lookupPlayer
                    (WritePlayer (WriteScan es (Scan.mk sid (some pid) none))
                      (Player.mk plo.id plo.name none)) pid with
                | none =>
                    simp only [ModifyPlayerScanId, ReadPlayer, hq] at h
                    simp at h
                | some q =>
                    simp only [ModifyPlayerScanId, ReadPlayer, hq, Prod.mk.injEq,
                      true_and] at h
                    subst h
                    have hqid : q.id = pid :=
                      lookupPlayer_eq_some_id _ pid q hq
                    refine ⟨_, getEvent_setEvent_self st e _, ?_, ?_⟩
                    · simp [lookupScan_WritePlayer, lookupScan_WriteScan]
                    · intro pid' hp'
                      cases hp'
                      simp [lookupPlayer_WritePlayer, hqid]

/-- Shape of the state after a successful MarkScan call. -/
theorem MarkScan_ok_post (st st1 : ServerState) (e : String) (sid : ScanId)
    (p : Option PlayerId) (h : MarkScan st e sid p = (Except.ok (), st1)) :
    ∃ es1, getEvent st1 e = some es1 ∧
      (lookupScan es1 sid).map Scan.player_id = some p ∧
      (∀ pid, p = some pid → (lookupPlayer es1 pid).isSome = true) := by
  cases hev : getEvent st e with
  | none =>
      rw [MarkScan] at h
      simp [hev] at h
  | some es =>
      cases hs : lookupScan es sid with
      | none =>
          rw [MarkScan] at h
          simp [hev, hs] at h
      | some sc =>
          cases p with
          | none =>
              rw [MarkScan] at h
              simp only [hev, hs] at h
              exact MarkScanCore_ok_post st st1 e es sid none sc hev hs
                (fun pid hp => by cases hp) h
          | some pid =>
              cases hpl0 : lookupPlayer es pid with
              | none =>
                  rw [MarkScan] at h
                  simp [hev, hs, hpl0] at h
              | some pl =>
                  rw [MarkScan] at h
                  simp only [hev, hs, hpl0, Option.isNone_some, Bool.false_eq_true,
                    if_false] at h
                  exact MarkScanCore_ok_post st st1 e es sid (some pid) sc hev hs
                    (fun pid' hp' => by cases hp'; simp [hpl0]) h

/-- C3: after a successful MarkScan, an identical second call finds the
scan already carrying the requested player id and returns successfully
with the state (including the ghost write counter) unchanged: zero
writes. -/
theorem C3_MarkScan_idempotent (st st1 : ServerState) (e : String) (sid : ScanId)
    (p : Option PlayerId) (h : MarkScan st e sid p = (Except.ok (), st1)) :
    ((getEvent st1 e).bind (fun es => (lookupScan es sid).map Scan.player_id)) = some p ∧
    MarkScan st1 e sid p = (Except.ok (), st1) := by
  obtain ⟨es1, hev1, hsc1, hpl1⟩ := MarkScan_ok_post st st1 e sid p h
  constructor
  · rw [hev1]
    simpa using hsc1
  · cases hsc : lookupScan es1 sid with
    | none =>
        rw [hsc] at hsc1
        simp at hsc1
    | some sc1 =>
        rw [hsc] at hsc1
        have hown : sc1.player_id = p := by
          simpa using hsc1
        cases p with
        | none => simp [MarkScan, hev1, hsc, MarkScanCore, hown]
        | some pid =>
            obtain ⟨pl, hpl⟩ := Option.isSome_iff_exists.mp (hpl1 pid rfl)
            simp [MarkScan, hev1, hsc, hpl, MarkScanCore, hown]

/-- C3 witness: marking s0 to player 0 on the demo state and repeating
the call leaves the state unchanged the second time. -/
theorem C3_MarkScan_idempotent_witness :
    ((getEvent (MarkScan demoState "ev" "s0" (some 0)).2 "ev").bind
        (fun es => (lookupScan es "s0").map Scan.player_id)) = some (some 0) ∧
    MarkScan (MarkScan demoState "ev" "s0" (some 0)).2 "ev" "s0" (some 0)
      = (Except.ok (), (MarkScan demoState "ev" "s0" (some 0)).2) :=
  C3_MarkScan_idempotent demoState (MarkScan demoState "ev" "s0" (some 0)).2
    "ev" "s0" (some 0) rfl

theorem players_foldl_RemovePlayer (ids : List PlayerId) (es : EventState) :
    ((ids.foldl RemovePlayer es).players)
      = ids.foldl (fun l i => removeAssoc Player.id l i) es.players := by
  induction ids generalizing es with
  | nil => rfl
  | cons i t ih => simp only [List.foldl_cons, ih, RemovePlayer]

theorem foldl_removeAssoc {α β : Type} [DecidableEq β] (key : α → β) (ids : List β)
    (l : List α) :
    ids.foldl (fun acc i => removeAssoc key acc i) l
      = l.filter (fun a => ! decide (key a ∈ ids)) := by
  induction ids generalizing l with
  | nil => simp
  | cons i t ih =>
      rw [List.foldl_cons, ih]
      simp only [removeAssoc, List.filter_filter]
      apply List.filter_congr
      intro a _
      by_cases h1 : key a = i <;> by_cases h2 : key a ∈ t <;>
        simp [List.mem_cons, h1, h2]

theorem filter_not_mem_self_keys {α β : Type} [DecidableEq β] (key : α → β) (l : List α) :
    l.filter (fun a => ! decide (key a ∈ l.map key)) = [] := by
  apply List.filter_eq_nil_iff.mpr
  intro a ha
  simp [List.mem_map]
  exact ⟨a, ha, rfl⟩

theorem lookupPlayer_foldl_WritePlayer (P : List Player) (es : EventState) (i : PlayerId) :
    lookupPlayer (P.foldl WritePlayer es) i
      = (P.reverse.find? (fun p => decide (p.id = i))).or (lookupPlayer es i) := by
  induction P generalizing es with
  | nil => simp
  | cons p t ih =>
      simp only [List.foldl_cons, ih, List.reverse_cons, List.find?_append]
      cases hf : t.reverse.find? (fun p => decide (p.id = i)) with
      | some q => simp
      | none =>
          rw [lookupPlayer_WritePlayer]
          by_cases hp : p.id = i <;> simp [List.find?, hp]

theorem pairwise_keys_setAssoc {α β : Type} [DecidableEq β] (key : α → β) (l : List α)
    (a : α) (h : l.Pairwise (fun x y => key x ≠ key y)) :
    (setAssoc key l a).Pairwise (fun x y => key x ≠ key y) := by
  rw [setAssoc, List.pairwise_append]
  refine ⟨h.sublist (List.filter_sublist l), ?_, ?_⟩
  · simp
  · intro x hx b hb
    simp only [List.mem_singleton] at hb
    subst hb
    have hmem := (List.mem_filter.mp hx).2
    simpa using hmem

theorem pairwise_keys_foldl_WritePlayer (P : List Player) (es : EventState)
    (h : es.players.Pairwise (fun x y => x.id ≠ y.id)) :
    ((P.foldl WritePlayer es).players).Pairwise (fun x y => x.id ≠ y.id) := by
  induction P generalizing es with
  | nil => exact h
  | cons p t ih =>
      exact ih (WritePlayer es p) (pairwise_keys_setAssoc Player.id es.players p h)

/-- C6: a successful SetPlayers replaces the stored players wholesale:
afterwards the record under id i is exactly the last element of the
input carrying id i (none when no input element does, so no previous
record survives), ids are stored without duplicates, and ListPlayers
returns exactly the stored records. -/
theorem C6_SetPlayers_bulk_replace (st : ServerState) (e : String) (es : EventState)
    (P : List Player) (hev : getEvent st e = some es) :
    (SetPlayers st e P).1 = Except.ok () ∧
    ∃ es', getEvent (SetPlayers st e P).2 e = some es' ∧
      (∀ i, lookupPlayer es' i = P.reverse.find? (fun p => decide (p.id = i))) ∧
      es'.players.Pairwise (fun p q => p.id ≠ q.id) ∧
      ListPlayers (SetPlayers st e P).2 e = (Except.ok es'.players, (SetPlayers st e P).2) := by
  have h2 : SetPlayers st e P
      = (.ok (), setEvent st e
          (P.foldl WritePlayer ((es.players.map Player.id).foldl RemovePlayer es))) := by
    simp [SetPlayers, hev]
  have hclear : (((es.players.map Player.id).foldl RemovePlayer es).players) = [] := by
    rw [players_foldl_RemovePlayer, foldl_removeAssoc, filter_not_mem_self_keys]
  refine ⟨by rw [h2], P.foldl WritePlayer ((es.players.map Player.id).foldl RemovePlayer es),
    ?_, ?_, ?_, ?_⟩
  · rw [h2]
    exact getEvent_setEvent_self st e _
  · intro i
    rw [lookupPlayer_foldl_WritePlayer]
    have hnone : lookupPlayer ((es.players.map Player.id).foldl RemovePlayer es) i = none := by
      rw [lookupPlayer, hclear]
      rfl
    rw [hnone, Option.or_none]
  · apply pairwise_keys_foldl_WritePlayer
    rw [hclear]
    exact List.Pairwise.nil
  · rw [h2]
    simp [ListPlayers, getEvent_setEvent_self]

/-- C6 witness: replacing the demo players with a list that repeats id 3
keeps only the last record for id 3 plus the record for id 4. -/
theorem C6_SetPlayers_bulk_replace_witness :
    (SetPlayers demoState "ev"
        [Player.mk 3 "x" none, Player.mk 4 "y" none, Player.mk 3 "z" none]).1
      = Except.ok () ∧
    ∃ es', getEvent (SetPlayers demoState "ev"
        [Player.mk 3 "x" none, Player.mk 4 "y" none, Player.mk 3 "z" none]).2 "ev"
        = some es' ∧
      (∀ i, lookupPlayer es' i
        = ([Player.mk 3 "x" none, Player.mk 4 "y" none,
            Player.mk 3 "z" none].reverse.find? (fun p => decide (p.id = i)))) ∧
      es'.players.Pairwise (fun p q => p.id ≠ q.id) ∧
      ListPlayers (SetPlayers demoState "ev"
          [Player.mk 3 "x" none, Player.mk 4 "y" none, Player.mk 3 "z" none]).2 "ev"
        = (Except.ok es'.players,
           (SetPlayers demoState "ev"
             [Player.mk 3 "x" none, Player.mk 4 "y" none, Player.mk 3 "z" none]).2) :=
  C6_SetPlayers_bulk_replace demoState "ev" demoEvent
    [Player.mk 3 "x" none, Player.mk 4 "y" none, Player.mk 3 "z" none] rfl

/-- If a state update rewrites one scan to owner p, gives p the scan,
clears the previous owner, and p held no other scan beforehand, then the
symmetry invariant survives. -/
theorem I1_update (es es1 : EventState) (sid : ScanId) (p : Option PlayerId)
    (hI : I1 es)
    (hfree : ∀ pid, p = some pid → playerScan es pid = none ∨ playerScan es pid = some sid)
    (Hscan : ∀ x, scanOwner es1 x = if sid = x then p else scanOwner es x)
    (Hplayer : ∀ y, playerScan es1 y = if p = some y then some sid
        else if scanOwner es sid = some y then none else playerScan es y) :
    I1 es1 := by
  intro x y
  rw [Hscan, Hplayer]
  by_cases hx : sid = x
  · subst hx
    rw [if_pos rfl]
    by_cases hp : p = some y
    · simp [hp]
    · rw [if_neg hp]
      by_cases hoy : scanOwner es sid = some y
      · simp [hp, hoy]
      · rw [if_neg hoy]
        simp only [hp, false_iff]
        intro hcon
        exact hoy ((hI sid y).mpr hcon)
  · rw [if_neg hx]
    by_cases hp : p = some y
    · rw [if_pos hp]
      constructor
      · intro hcon
        rcases hfree y hp with hf | hf
        · rw [(hI x y).mp hcon] at hf
          cases hf
        · rw [(hI x y).mp hcon] at hf
          injection hf with hxs
          exact (hx hxs.symm).elim
      · intro hcon
        injection hcon with hsx
        exact (hx hsx).elim
    · rw [if_neg hp]
      by_cases hoy : scanOwner es sid = some y
      · rw [if_pos hoy]
        constructor
        · intro hcon
          have h1 := (hI x y).mp hcon
          have h2 := (hI sid y).mp hoy
          rw [h1] at h2
          injection h2 with hxs
          exact (hx hxs.symm).elim
        · intro hcon
          cases hcon
      · rw [if_neg hoy]
        exact hI x y

/-- Pointwise effect of a successful MarkScanCore run on scan owners and
player back-references: the marked scan now carries the requested player,
the requested player now carries the scan, the previous owner is
cleared, and everything else is untouched. -/
theorem MarkScanCore_ok_chars (st st1 : ServerState) (e : String) (es : EventState)
    (sid : ScanId) (p : Option PlayerId) (sc : Scan)
    (hev : getEvent st e = some es)
    (hs : lookupScan es sid = some sc)
    (hI : I1 es)
    (h : MarkScanCore st e es sid p sc = (Except.ok (), st1)) :
    ∃ es1, getEvent st1 e = some es1 ∧
      (∀ x, scanOwner es1 x = if sid = x then p else scanOwner es x) ∧
      (∀ y, playerScan es1 y = if p = some y then some sid
          else if sc.player_id = some y then none else playerScan es y) := by
  have hown : scanOwner es sid = sc.player_id := by
    simp [scanOwner, hs]
  by_cases heq : p = sc.player_id
  · rw [MarkScanCore, if_pos heq] at h
    simp only [Prod.mk.injEq, true_and] at h
    subst h
    refine ⟨es, hev, ?_, ?_⟩
    · intro x
      by_cases hx : sid = x
      · subst hx
        rw [if_pos rfl, hown, heq]
      · rw [if_neg hx]
    · intro y
      by_cases hp : p = some y
      · rw [if_pos hp]
        exact (hI sid y).mp (by rw [hown, ← heq, hp])
      · rw [if_neg hp, if_neg (by rw [← heq]; exact hp)]
  · rw [MarkScanCore, if_neg heq] at h
    cases hold : sc.player_id with
    | none =>
        rw [hold] at h
        cases p with
        | none => exact absurd hold.symm heq
        | some pid =>
            cases hq : lookupPlayer (WriteScan es (Scan.mk sid (some pid) none)) pid with
            | none =>
                simp only [ModifyPlayerScanId, ReadPlayer, hq] at h
                simp at h
            | some q =>
                simp only [ModifyPlayerScanId, ReadPlayer, hq, Prod.mk.injEq,
                  true_and] at h
                subst h
                have hqid : q.id = pid := lookupPlayer_eq_some_id _ pid q hq
                refine ⟨_, getEvent_setEvent_self st e _, ?_, ?_⟩
                · intro x
                  by_cases hx : sid = x <;>
                    simp [scanOwner, lookupScan_WritePlayer, lookupScan_WriteScan, hx]
                · intro y
                  by_cases hy : pid = y
                  · subst hy
                    simp [playerScan, lookupPlayer_WritePlayer, hqid]
                  · have hpy : ¬ (some pid = some y) := by
                      intro hcon
                      injection hcon with hcon
                      exact hy hcon
                    simp only [if_neg hpy, if_neg (by simp : ¬ (none = some y))]
                    simp [playerScan, lookupPlayer_WritePlayer, hqid, hy,
                      lookupPlayer_WriteScan]
    | some o =>
        rw [hold] at h
        cases holdpl : lookupPlayer (WriteScan es (Scan.mk sid p none)) o with
        | none =>
            simp only [ModifyPlayerScanId, ReadPlayer, holdpl] at h
            simp at h
        | some plo =>
            have hploid : plo.id = o := lookupPlayer_eq_some_id _ o plo holdpl
            simp only [ModifyPlayerScanId, ReadPlayer, holdpl] at h
            cases p with
            | none =>
                simp only [Prod.mk.injEq, true_and] at h
                subst h
                refine ⟨_, getEvent_setEvent_self st e _, ?_, ?_⟩
                · intro x
                  by_cases hx : sid = x <;>
                    simp [scanOwner, lookupScan_WritePlayer, lookupScan_WriteScan, hx]
                · intro y
                  by_cases hy : o = y
                  · subst hy
                    simp [playerScan, lookupPlayer_WritePlayer, hploid]
                  · have hoy : ¬ ((some o : Option PlayerId) = some y) := by
                      intro hcon
                      injection hcon with hcon
                      exact hy hcon
                    simp only [if_neg (by simp : ¬ ((none : Option PlayerId) = some y)),
                      if_neg hoy]
                    simp [playerScan, lookupPlayer_WritePlayer, hploid, hy,
                      lookupPlayer_WriteScan]
            | some pid =>
                cases hq : lookupPlayer
                    (WritePlayer (WriteScan es (Scan.mk sid (some pid) none))
                      (Player.mk plo.id plo.name none)) pid with
                | none =>
                    simp only [ModifyPlayerScanId, ReadPlayer, hq] at h
                    simp at h
                | some q =>
                    simp only [ModifyPlayerScanId, ReadPlayer, hq, Prod.mk.injEq,
                      true_and] at h
                    subst h
                    have hqid : q.id = pid := lookupPlayer_eq_some_id _ pid q hq
                    have hpo : ¬ pid = o := by
                      intro hcon
                      apply heq
                      rw [hold, hcon]
                    refine ⟨_, getEvent_setEvent_self st e _, ?_, ?_⟩
                    · intro x
                      by_cases hx : sid = x <;>
                        simp [scanOwner, lookupScan_WritePlayer, lookupScan_WriteScan, hx]
                    · intro y
                      by_cases hy : pid = y
                      · subst hy
                        simp [playerScan, lookupPlayer_WritePlayer, hqid]
                      · have hpy : ¬ (some pid = some y) := by
                          intro hcon
                          injection hcon with hcon
                          exact hy hcon
                        rw [if_neg hpy]
                        by_cases hoy : o = y
                        · subst hoy
                          rw [if_pos rfl]
                          simp [playerScan, lookupPlayer_WritePlayer, hqid, hy, hploid]
                        · have hoy2 : ¬ ((some o : Option PlayerId) = some y) := by
                            intro hcon
                            injection hcon with hcon
                            exact hoy hcon
                          rw [if_neg hoy2]
                          simp [playerScan, lookupPlayer_WritePlayer, hqid, hy, hploid,
                            hoy, lookupPlayer_WriteScan]

/-- Event content for the counterexample to C1 as stated: player 0
already holds scan s1 (symmetrically recorded), scan s2 is unmarked. -/
def c1event : EventState :=
  EventState.mk [Player.mk 0 "a" (some "s1")]
    [Scan.mk "s1" (some 0) none, Scan.mk "s2" none none] [] 0

/-- Server state holding the counterexample event. -/
def c1state : ServerState := ServerState.mk [("ev", c1event)]

/-- Event content after MarkScan(ev, s2, 0) on c1event: scan s1 still
names player 0 while player 0 now names s2. -/
def c1after : EventState :=
  EventState.mk [Player.mk 0 "a" (some "s2")]
    [Scan.mk "s1" (some 0) none, Scan.mk "s2" (some 0) none] [] 2

/-- C1 as stated is false: from a state satisfying I1 in which player 0
already holds scan s1, MarkScan(ev, s2, 0) succeeds but never clears the
back-reference of player 0 to s1, so the resulting state violates I1
(scan s1 names player 0, player 0 names s2). -/
theorem C1_counterexample :
    I1 c1event ∧
    MarkScan c1state "ev" "s2" (some 0) = (Except.ok (), setEvent c1state "ev" c1after) ∧
    ¬ I1 c1after := by
  refine ⟨?_, by rfl, ?_⟩
  · intro sid pid
    simp only [I1, scanOwner, playerScan, lookupScan, lookupPlayer, c1event,
      lookupAssoc_cons, lookupAssoc_nil]
    by_cases h1 : "s1" = sid
    · subst h1
      by_cases h0 : (0 : PlayerId) = pid <;> simp [h0]
    · by_cases h2 : "s2" = sid
      · subst h2
        by_cases h0 : (0 : PlayerId) = pid <;> simp [h1, h0]
      · by_cases h0 : (0 : PlayerId) = pid <;> simp [h1, h2, h0]
  · intro hI
    have hcon := (hI "s1" 0).mp (by decide)
    exact absurd hcon (by decide)

/-- C1 amended: from a state satisfying I1, a successful MarkScan
preserves I1 under the additional hypothesis (violated by the
counterexample, not required by the claim as stated) that the requested
player does not currently hold a different scan.  The marked scan then
names the requested player, the requested player names the scan, and
the previous owner, when different, is cleared. -/
theorem C1_MarkScan_preserves_I1 (st st1 : ServerState) (e : String) (sid : ScanId)
    (p : Option PlayerId) (es : EventState)
    (hev : getEvent st e = some es) (hI : I1 es)
    (hfree : ∀ pid, p = some pid → playerScan es pid = none ∨ playerScan es pid = some sid)
    (hok : MarkScan st e sid p = (Except.ok (), st1)) :
    ∃ es1, getEvent st1 e = some es1 ∧ I1 es1 ∧
      scanOwner es1 sid = p ∧
      (∀ pid, p = some pid → playerScan es1 pid = some sid) ∧
      (∀ old, scanOwner es sid = some old → ¬ p = some old → playerScan es1 old = none) := by
  have hcore : ∃ sc, lookupScan es sid = some sc ∧
      MarkScanCore st e es sid p sc = (Except.ok (), st1) := by
    cases hs : lookupScan es sid with
    | none =>
        rw [MarkScan] at hok
        simp [hev, hs] at hok
    | some sc =>
        refine ⟨sc, rfl, ?_⟩
        cases p with
        | none =>
            rw [MarkScan] at hok
            simp only [hev, hs] at hok
            exact hok
        | some pid =>
            cases hpl0 : lookupPlayer es pid with
            | none =>
                rw [MarkScan] at hok
                simp [hev, hs, hpl0] at hok
            | some pl =>
                rw [MarkScan] at hok
                simp only [hev, hs, hpl0, Option.isNone_some, Bool.false_eq_true,
                  if_false] at hok
                exact hok
  obtain ⟨sc, hs, hcoreok⟩ := hcore
  obtain ⟨es1, hev1, Hscan, Hplayer⟩ :=
    MarkScanCore_ok_chars st st1 e es sid p sc hev hs hI hcoreok
  have hown : scanOwner es sid = sc.player_id := by
    simp [scanOwner, hs]
  have Hplayer2 : ∀ y, playerScan es1 y = if p = some y then some sid
      else if scanOwner es sid = some y then none else playerScan es y := by
    intro y
    rw [Hplayer, hown]
  refine ⟨es1, hev1, I1_update es es1 sid p hI hfree Hscan Hplayer2, ?_, ?_, ?_⟩
  · rw [Hscan sid, if_pos rfl]
  · intro pid hp
    rw [Hplayer2 pid, if_pos hp]
  · intro old hso hne
    rw [Hplayer2 old, if_neg hne, if_pos hso]

/-- The demo event satisfies I1: nothing is marked. -/
theorem demoEvent_I1 : I1 demoEvent := by
  intro sid pid
  have h1 : scanOwner demoEvent sid = none := by
    simp only [scanOwner, lookupScan, demoEvent, lookupAssoc_cons, lookupAssoc_nil]
    by_cases h1 : "s0" = sid <;> by_cases h2 : "s1" = sid <;> simp [h1, h2]
  have h2 : playerScan demoEvent pid = none := by
    simp only [playerScan, lookupPlayer, demoEvent, lookupAssoc_cons, lookupAssoc_nil]
    by_cases h1 : (0 : PlayerId) = pid <;> by_cases h2 : (1 : PlayerId) = pid <;>
      simp [h1, h2]
  simp [h1, h2]

/-- C1 witness: marking s0 to player 0 from the clean demo state (player
0 holds nothing, so the amendment hypothesis holds) yields a state that
still satisfies I1, with s0 and player 0 referencing each other. -/
theorem C1_MarkScan_preserves_I1_witness :
    ∃ es1, getEvent (MarkScan demoState "ev" "s0" (some 0)).2 "ev" = some es1 ∧
      I1 es1 ∧
      scanOwner es1 "s0" = some 0 ∧
      (∀ pid, (some 0 : Option PlayerId) = some pid → playerScan es1 pid = some "s0") ∧
      (∀ old, scanOwner demoEvent "s0" = some old → ¬ (some 0 : Option PlayerId) = some old →
        playerScan es1 old = none) :=
  C1_MarkScan_preserves_I1 demoState (MarkScan demoState "ev" "s0" (some 0)).2
    "ev" "s0" (some 0) demoEvent rfl demoEvent_I1
    (fun pid hp => by cases hp; exact Or.inl rfl) rfl

end Ctm
